import Mathlib

/-!
Verification of the data-preparation and filtering pipeline of
`ytdashboardstreamlit.py` (a Streamlit dashboard over a pandas DataFrame).

The pandas/numpy float64 cell values are modelled by `PVal`: `nan` is the
"missing" value, `inf s` the two signed infinities, and `fin q` a finite
value as an exact rational.  Signed zero is not modelled; `fin 0` behaves
as IEEE +0.  Arithmetic (`pvAdd`, `pvMul`, `pvDiv`) and comparisons
(`pvGeQ`, `pvLeQ`) follow IEEE-754 semantics as used by pandas: `nan`
poisons arithmetic, every comparison against `nan` is false, and a
finite, nonzero value divided by zero is a signed infinity while `0 / 0`
is `nan`.

Raw text (column headers, unparsed numeric cells) is modelled as a list
of character code points (`List ℕ`), so that Python's `str.strip`,
`str.lower` and `str.replace(" ", "_")` become code-point functions.
`str.lower` is modelled on the ASCII range, which covers every header of
the data source.
-/

namespace YTDash

/-- A pandas float64 cell: missing (`NaN`), a signed infinity, or a finite
value modelled as an exact rational.  `inf true` is `+∞`, `inf false` is
`-∞`. -/
inductive PVal where
  | nan : PVal
  | inf : Bool → PVal
  | fin : ℚ → PVal
deriving DecidableEq

/-- pandas missingness test (`pd.isna`): only `NaN` is missing; infinities
are not. -/
def isMissing : PVal → Bool
  | PVal.nan => true
  | _ => false

/-- IEEE-754 addition on `PVal` (pandas column addition). -/
def pvAdd : PVal → PVal → PVal
  | PVal.nan, _ => PVal.nan
  | _, PVal.nan => PVal.nan
  | PVal.inf s, PVal.inf t => if s = t then PVal.inf s else PVal.nan
  | PVal.inf s, PVal.fin _ => PVal.inf s
  | PVal.fin _, PVal.inf t => PVal.inf t
  | PVal.fin a, PVal.fin b => PVal.fin (a + b)

/-- IEEE-754 multiplication on `PVal` (pandas column multiplication). -/
def pvMul : PVal → PVal → PVal
  | PVal.nan, _ => PVal.nan
  | _, PVal.nan => PVal.nan
  | PVal.inf s, PVal.inf t => PVal.inf (s == t)
  | PVal.inf s, PVal.fin b => if b = 0 then PVal.nan else PVal.inf (s == decide (0 < b))
  | PVal.fin a, PVal.inf t => if a = 0 then PVal.nan else PVal.inf (t == decide (0 < a))
  | PVal.fin a, PVal.fin b => PVal.fin (a * b)

/-- IEEE-754 division on `PVal` (pandas column division): a nonzero finite
value divided by zero is a signed infinity, `0 / 0` is `NaN`. -/
def pvDiv : PVal → PVal → PVal
  | PVal.nan, _ => PVal.nan
  | _, PVal.nan => PVal.nan
  | PVal.inf _, PVal.inf _ => PVal.nan
  | PVal.inf s, PVal.fin b => if b = 0 then PVal.inf s else PVal.inf (s == decide (0 < b))
  | PVal.fin _, PVal.inf _ => PVal.fin 0
  | PVal.fin a, PVal.fin b =>
      if b = 0 then (if a = 0 then PVal.nan else PVal.inf (decide (0 < a)))
      else PVal.fin (a / b)

/-- IEEE comparison `x ≥ q` against a finite bound: false for `NaN`
(pandas `series >= bound` is `False` on missing cells). -/
def pvGeQ : PVal → ℚ → Bool
  | PVal.nan, _ => false
  | PVal.inf s, _ => s
  | PVal.fin a, q => decide (q ≤ a)

/-- IEEE comparison `x ≤ q` against a finite bound: false for `NaN`. -/
def pvLeQ : PVal → ℚ → Bool
  | PVal.nan, _ => false
  | PVal.inf s, _ => !s
  | PVal.fin a, q => decide (a ≤ q)

/-- One row of the base table after `load_data` (lines 13-32): the parsed
numeric columns, the string columns used by the filters, and the four
derived columns. -/
structure Record where
  youtuber : Option String
  country : Option String
  channel_type : Option String
  subscribers : PVal
  video_views : PVal
  uploads : PVal
  video_views_for_the_last_30_days : PVal
  lowest_monthly_earnings : PVal
  highest_monthly_earnings : PVal
  lowest_yearly_earnings : PVal
  highest_yearly_earnings : PVal
  avg_monthly_earnings : PVal
  avg_yearly_earnings : PVal
  views_per_video : PVal
  engagement_rate : PVal
deriving DecidableEq

/-- Lines 27-30 of `load_data`: the four derived columns, computed by
pandas column arithmetic on the same record.

    df['avg_monthly_earnings'] = (df['lowest_monthly_earnings'] + df['highest_monthly_earnings']) / 2
    df['avg_yearly_earnings']  = (df['lowest_yearly_earnings'] + df['highest_yearly_earnings']) / 2
    df['views_per_video']      = df['video_views'] / df['uploads']
    df['engagement_rate']      = df['video_views_for_the_last_30_days'] / df['video_views'] * 100
-/
def addDerived (r : Record) : Record :=
  { r with
    avg_monthly_earnings :=
      pvDiv (pvAdd r.lowest_monthly_earnings r.highest_monthly_earnings) (PVal.fin 2)
    avg_yearly_earnings :=
      pvDiv (pvAdd r.lowest_yearly_earnings r.highest_yearly_earnings) (PVal.fin 2)
    views_per_video := pvDiv r.video_views r.uploads
    engagement_rate :=
      pvMul (pvDiv r.video_views_for_the_last_30_days r.video_views) (PVal.fin 100) }

/-- A base-table row before the derived columns are added: the string
columns are left empty and the derived columns are initialised missing. -/
def mkBase (subs lm hm ly hy vv up t30 : PVal) : Record :=
  { youtuber := none
    country := none
    channel_type := none
    subscribers := subs
    video_views := vv
    uploads := up
    video_views_for_the_last_30_days := t30
    lowest_monthly_earnings := lm
    highest_monthly_earnings := hm
    lowest_yearly_earnings := ly
    highest_yearly_earnings := hy
    avg_monthly_earnings := PVal.nan
    avg_yearly_earnings := PVal.nan
    views_per_video := PVal.nan
    engagement_rate := PVal.nan }

/-- C1, counterexample: a record with total views 1000 and upload count 0.
The code computes `views_per_video = 1000 / 0 = +∞`, which is not a
missing value, so a zero denominator does not make the derived field
missing as the claim states. -/
theorem derived_zero_denominator_not_missing :
    (addDerived (mkBase (PVal.fin 0) (PVal.fin 0) (PVal.fin 0) (PVal.fin 0) (PVal.fin 0)
        (PVal.fin 1000) (PVal.fin 0) (PVal.fin 0))).views_per_video = PVal.inf true ∧
    PVal.inf true ≠ PVal.nan := by
  refine ⟨?_, by decide⟩
  simp [addDerived, mkBase, pvDiv]

/-- C1 (amended): each derived field equals the documented formula when
all of its source fields are present (finite) and, for the two ratio
fields, the denominator is nonzero; the derived field is missing when any
source field is missing, or when numerator and denominator are both zero;
a zero denominator with a positive numerator yields `+∞`, which is not
missing. -/
theorem derived_fields_spec (l h ly hy v u t : ℚ) (x y : PVal) :
    (addDerived (mkBase (PVal.fin 0) (PVal.fin l) (PVal.fin h) (PVal.fin ly) (PVal.fin hy)
        (PVal.fin v) (PVal.fin u) (PVal.fin t))).avg_monthly_earnings
      = PVal.fin ((l + h) / 2) ∧
    (addDerived (mkBase (PVal.fin 0) (PVal.fin l) (PVal.fin h) (PVal.fin ly) (PVal.fin hy)
        (PVal.fin v) (PVal.fin u) (PVal.fin t))).avg_yearly_earnings
      = PVal.fin ((ly + hy) / 2) ∧
    (u ≠ 0 →
      (addDerived (mkBase (PVal.fin 0) (PVal.fin l) (PVal.fin h) (PVal.fin ly) (PVal.fin hy)
        (PVal.fin v) (PVal.fin u) (PVal.fin t))).views_per_video
      = PVal.fin (v / u)) ∧
    (v ≠ 0 →
      (addDerived (mkBase (PVal.fin 0) (PVal.fin l) (PVal.fin h) (PVal.fin ly) (PVal.fin hy)
        (PVal.fin v) (PVal.fin u) (PVal.fin t))).engagement_rate
      = PVal.fin (t / v * 100)) ∧
    (0 < v →
      (addDerived (mkBase (PVal.fin 0) (PVal.fin l) (PVal.fin h) (PVal.fin ly) (PVal.fin hy)
        (PVal.fin v) (PVal.fin 0) (PVal.fin t))).views_per_video = PVal.inf true) ∧
    (addDerived (mkBase (PVal.fin 0) (PVal.fin l) (PVal.fin h) (PVal.fin ly) (PVal.fin hy)
        (PVal.fin 0) (PVal.fin 0) (PVal.fin t))).views_per_video = PVal.nan ∧
    (0 < t →
      (addDerived (mkBase (PVal.fin 0) (PVal.fin l) (PVal.fin h) (PVal.fin ly) (PVal.fin hy)
        (PVal.fin 0) (PVal.fin u) (PVal.fin t))).engagement_rate = PVal.inf true) ∧
    (addDerived (mkBase (PVal.fin 0) (PVal.fin l) (PVal.fin h) (PVal.fin ly) (PVal.fin hy)
        (PVal.fin 0) (PVal.fin u) (PVal.fin 0))).engagement_rate = PVal.nan ∧
    (addDerived (mkBase (PVal.fin 0) PVal.nan x (PVal.fin ly) (PVal.fin hy)
        (PVal.fin v) (PVal.fin u) (PVal.fin t))).avg_monthly_earnings = PVal.nan ∧
    (addDerived (mkBase (PVal.fin 0) x PVal.nan (PVal.fin ly) (PVal.fin hy)
        (PVal.fin v) (PVal.fin u) (PVal.fin t))).avg_monthly_earnings = PVal.nan ∧
    (addDerived (mkBase (PVal.fin 0) (PVal.fin l) (PVal.fin h) PVal.nan x
        (PVal.fin v) (PVal.fin u) (PVal.fin t))).avg_yearly_earnings = PVal.nan ∧
    (addDerived (mkBase (PVal.fin 0) (PVal.fin l) (PVal.fin h) x PVal.nan
        (PVal.fin v) (PVal.fin u) (PVal.fin t))).avg_yearly_earnings = PVal.nan ∧
    (addDerived (mkBase (PVal.fin 0) (PVal.fin l) (PVal.fin h) (PVal.fin ly) (PVal.fin hy)
        PVal.nan y (PVal.fin t))).views_per_video = PVal.nan ∧
    (addDerived (mkBase (PVal.fin 0) (PVal.fin l) (PVal.fin h) (PVal.fin ly) (PVal.fin hy)
        x PVal.nan (PVal.fin t))).views_per_video = PVal.nan ∧
    (addDerived (mkBase (PVal.fin 0) (PVal.fin l) (PVal.fin h) (PVal.fin ly) (PVal.fin hy)
        PVal.nan y x)).engagement_rate = PVal.nan ∧
    (addDerived (mkBase (PVal.fin 0) (PVal.fin l) (PVal.fin h) (PVal.fin ly) (PVal.fin hy)
        x (PVal.fin u) PVal.nan)).engagement_rate = PVal.nan := by
  refine ⟨?_, ?_, ?_, ?_, ?_, ?_, ?_, ?_, ?_, ?_, ?_, ?_, ?_, ?_, ?_, ?_⟩
  · simp [addDerived, mkBase, pvAdd, pvDiv]
  · simp [addDerived, mkBase, pvAdd, pvDiv]
  · intro hu
    simp [addDerived, mkBase, pvDiv, hu]
  · intro hv
    simp [addDerived, mkBase, pvDiv, pvMul, hv]
  · intro hv
    simp [addDerived, mkBase, pvDiv, pvMul, hv, ne_of_gt hv]
  · simp [addDerived, mkBase, pvDiv]
  · intro ht
    simp [addDerived, mkBase, pvDiv, pvMul, ht, ne_of_gt ht]
  · simp [addDerived, mkBase, pvDiv, pvMul]
  · cases x <;> simp [addDerived, mkBase, pvAdd, pvDiv]
  · cases x <;> simp [addDerived, mkBase, pvAdd, pvDiv]
  · cases x <;> simp [addDerived, mkBase, pvAdd, pvDiv]
  · cases x <;> simp [addDerived, mkBase, pvAdd, pvDiv]
  · cases y <;> simp [addDerived, mkBase, pvDiv]
  · cases x <;> simp [addDerived, mkBase, pvDiv]
  · cases x <;> cases y <;> simp [addDerived, mkBase, pvDiv, pvMul]
  · cases x <;> simp [addDerived, mkBase, pvDiv, pvMul]

/-- C1 witness: the amended theorem applied at concrete inputs, with the
hypotheses discharged there. -/
theorem derived_fields_spec_witness :
    (2 : ℚ) ≠ 0 ∧ (0 : ℚ) < 6 ∧ (0 : ℚ) < 3 ∧
    ((addDerived (mkBase (PVal.fin 0) (PVal.fin 1) (PVal.fin 3) (PVal.fin 2) (PVal.fin 4)
        (PVal.fin 6) (PVal.fin 2) (PVal.fin 3))).avg_monthly_earnings
      = PVal.fin ((1 + 3) / 2) ∧
    (addDerived (mkBase (PVal.fin 0) (PVal.fin 1) (PVal.fin 3) (PVal.fin 2) (PVal.fin 4)
        (PVal.fin 6) (PVal.fin 2) (PVal.fin 3))).avg_yearly_earnings
      = PVal.fin ((2 + 4) / 2) ∧
    (addDerived (mkBase (PVal.fin 0) (PVal.fin 1) (PVal.fin 3) (PVal.fin 2) (PVal.fin 4)
        (PVal.fin 6) (PVal.fin 2) (PVal.fin 3))).views_per_video
      = PVal.fin (6 / 2) ∧
    (addDerived (mkBase (PVal.fin 0) (PVal.fin 1) (PVal.fin 3) (PVal.fin 2) (PVal.fin 4)
        (PVal.fin 6) (PVal.fin 2) (PVal.fin 3))).engagement_rate
      = PVal.fin (3 / 6 * 100) ∧
    (addDerived (mkBase (PVal.fin 0) (PVal.fin 1) (PVal.fin 3) (PVal.fin 2) (PVal.fin 4)
        (PVal.fin 6) (PVal.fin 0) (PVal.fin 3))).views_per_video = PVal.inf true ∧
    (addDerived (mkBase (PVal.fin 0) (PVal.fin 1) (PVal.fin 3) (PVal.fin 2) (PVal.fin 4)
        (PVal.fin 0) (PVal.fin 0) (PVal.fin 3))).views_per_video = PVal.nan ∧
    (addDerived (mkBase (PVal.fin 0) (PVal.fin 1) (PVal.fin 3) (PVal.fin 2) (PVal.fin 4)
        (PVal.fin 0) (PVal.fin 2) (PVal.fin 3))).engagement_rate = PVal.inf true ∧
    (addDerived (mkBase (PVal.fin 0) (PVal.fin 1) (PVal.fin 3) (PVal.fin 2) (PVal.fin 4)
        (PVal.fin 0) (PVal.fin 2) (PVal.fin 0))).engagement_rate = PVal.nan ∧
    (addDerived (mkBase (PVal.fin 0) PVal.nan PVal.nan (PVal.fin 2) (PVal.fin 4)
        (PVal.fin 6) (PVal.fin 2) (PVal.fin 3))).avg_monthly_earnings = PVal.nan ∧
    (addDerived (mkBase (PVal.fin 0) PVal.nan PVal.nan (PVal.fin 2) (PVal.fin 4)
        (PVal.fin 6) (PVal.fin 2) (PVal.fin 3))).avg_monthly_earnings = PVal.nan ∧
    (addDerived (mkBase (PVal.fin 0) (PVal.fin 1) (PVal.fin 3) PVal.nan PVal.nan
        (PVal.fin 6) (PVal.fin 2) (PVal.fin 3))).avg_yearly_earnings = PVal.nan ∧
    (addDerived (mkBase (PVal.fin 0) (PVal.fin 1) (PVal.fin 3) PVal.nan PVal.nan
        (PVal.fin 6) (PVal.fin 2) (PVal.fin 3))).avg_yearly_earnings = PVal.nan ∧
    (addDerived (mkBase (PVal.fin 0) (PVal.fin 1) (PVal.fin 3) (PVal.fin 2) (PVal.fin 4)
        PVal.nan PVal.nan (PVal.fin 3))).views_per_video = PVal.nan ∧
    (addDerived (mkBase (PVal.fin 0) (PVal.fin 1) (PVal.fin 3) (PVal.fin 2) (PVal.fin 4)
        PVal.nan PVal.nan (PVal.fin 3))).views_per_video = PVal.nan ∧
    (addDerived (mkBase (PVal.fin 0) (PVal.fin 1) (PVal.fin 3) (PVal.fin 2) (PVal.fin 4)
        PVal.nan PVal.nan PVal.nan)).engagement_rate = PVal.nan ∧
    (addDerived (mkBase (PVal.fin 0) (PVal.fin 1) (PVal.fin 3) (PVal.fin 2) (PVal.fin 4)
        PVal.nan (PVal.fin 2) PVal.nan)).engagement_rate = PVal.nan) := by
  obtain ⟨c1, c2, c3, c4, c5, c6, c7, c8, c9, c10, c11, c12, c13, c14, c15, c16⟩ :=
    derived_fields_spec 1 3 2 4 6 2 3 PVal.nan PVal.nan
  exact ⟨by norm_num, by norm_num, by norm_num, c1, c2, c3 (by norm_num), c4 (by norm_num),
    c5 (by norm_num), c6, c7 (by norm_num), c8, c9, c10, c11, c12, c13, c14, c15, c16⟩

/-! ### Filter engine (lines 57-86) -/

/-- The user-selected filter criteria, as produced by the sidebar widgets:
the multi-select lists (lines 61-62) and the integer sliders (lines
66-72).  `minSubsM` is in millions, `minViewsB` in billions, and the
earnings bounds in thousands of dollars, exactly as the sliders are
scaled before comparison (lines 82-85). -/
structure Criteria where
  countries : List String
  channelTypes : List String
  minSubsM : ℤ
  minViewsB : ℤ
  earningsLoK : ℤ
  earningsHiK : ℤ

/-- pandas `Series.isin` on a nullable string column: a missing value is
in no selection list. -/
def optIn (o : Option String) (sel : List String) : Bool :=
  match o with
  | some s => sel.contains s
  | none => false

/-- Lines 84-85: the monthly-earnings range criterion,
`highest_monthly_earnings >= lo*1000 and highest_monthly_earnings <= hi*1000`
with IEEE comparisons (false on a missing value). -/
def earningsPass (loK hiK : ℤ) (r : Record) : Bool :=
  pvGeQ r.highest_monthly_earnings ((loK : ℚ) * 1000) &&
  pvLeQ r.highest_monthly_earnings ((hiK : ℚ) * 1000)

/-- Lines 81-86: the conjunction of the numeric threshold criteria. -/
def numericPass (c : Criteria) (r : Record) : Bool :=
  pvGeQ r.subscribers ((c.minSubsM : ℚ) * 1000000) &&
  pvGeQ r.video_views ((c.minViewsB : ℚ) * 1000000000) &&
  earningsPass c.earningsLoK c.earningsHiK r

/-- Lines 75-86: the filter pipeline.  The country and channel-type
filters are applied only when the corresponding selection is nonempty
(the `if selected_countries:` / `if selected_types:` guards), then the
numeric mask is applied. -/
def filteredTable (T : List Record) (c : Criteria) : List Record :=
  let t1 := if c.countries.isEmpty then T else T.filter (fun r => optIn r.country c.countries)
  let t2 :=
    if c.channelTypes.isEmpty then t1
    else t1.filter (fun r => optIn r.channel_type c.channelTypes)
  t2.filter (numericPass c)

/-- The one-pass predicate equivalent of the filter pipeline: a record
appears in the filtered view iff it satisfies every active criterion. -/
def matchesCriteria (c : Criteria) (r : Record) : Bool :=
  (c.countries.isEmpty || optIn r.country c.countries) &&
  (c.channelTypes.isEmpty || optIn r.channel_type c.channelTypes) &&
  numericPass c r

theorem filteredTable_eq_filter (T : List Record) (c : Criteria) :
    filteredTable T c = T.filter (matchesCriteria c) := by
  cases h1 : c.countries.isEmpty <;> cases h2 : c.channelTypes.isEmpty <;>
    simp only [filteredTable, h1, h2, Bool.false_eq_true, if_true, if_false, ite_true,
      ite_false, List.filter_filter] <;>
    refine List.filter_congr fun r hr => ?_ <;>
    simp only [matchesCriteria, h1, h2, Bool.false_or, Bool.true_or, Bool.true_and] <;>
    cases numericPass c r <;> cases optIn r.country c.countries <;>
      cases optIn r.channel_type c.channelTypes <;> rfl

/-- Python `int()` on a rational: truncation toward zero (used on the
slider upper bounds, lines 66-72). -/
def pyInt (q : ℚ) : ℤ := q.num / (q.den : ℤ)

/-- The finite (non-missing) highest-monthly-earnings values of a table;
pandas `max` skips missing values. -/
def finiteHighs (T : List Record) : List ℚ :=
  T.filterMap fun r =>
    match r.highest_monthly_earnings with
    | PVal.fin q => some q
    | _ => none

/-- `df['highest_monthly_earnings'].max()` over the finite values, with 0
for an empty column (on a table with no finite value the Python code
would instead fail at `int(nan)`, line 70). -/
def maxHighQ (T : List Record) : ℚ := (finiteHighs T).foldr max 0

/-- The criteria produced by the untouched sidebar: empty selections,
zero minimum sliders, and the full earnings-range slider
`(0, int(df['highest_monthly_earnings'].max()/1000))` (lines 68-72). -/
def unrestrictedCriteria (T : List Record) : Criteria :=
  { countries := []
    channelTypes := []
    minSubsM := 0
    minViewsB := 0
    earningsLoK := 0
    earningsHiK := pyInt (maxHighQ T / 1000) }

/-- A record whose subscriber count is missing, in an otherwise ordinary
table. -/
def recMissingSubs : Record :=
  addDerived (mkBase PVal.nan (PVal.fin 0) (PVal.fin 0) (PVal.fin 0) (PVal.fin 0)
    (PVal.fin 1) (PVal.fin 1) (PVal.fin 1))

/-- C2, counterexample: on a one-record base table whose record has a
missing subscriber count, filtering with the fully unrestricted criteria
returns the empty sequence, not the base table: `NaN >= 0` is false, so
even a zero minimum drops the record. -/
theorem unrestricted_filter_drops_missing :
    filteredTable [recMissingSubs] (unrestrictedCriteria [recMissingSubs]) = [] ∧
    ([] : List Record) ≠ [recMissingSubs] := by
  constructor
  · rfl
  · simp

/-- C2 (amended): filtering with the fully unrestricted criteria returns
the base table in content and order provided every record has present,
non-negative subscriber, total-views and highest-monthly-earnings values
and no highest-monthly-earnings value exceeds the slider cap
`1000 * int(max/1000)`; a record with any of those three fields missing
is dropped even by the unrestricted criteria. -/
theorem unrestricted_filter_id (T : List Record)
    (hp : ∀ r ∈ T,
      (∃ q : ℚ, r.subscribers = PVal.fin q ∧ 0 ≤ q) ∧
      (∃ q : ℚ, r.video_views = PVal.fin q ∧ 0 ≤ q) ∧
      (∃ q : ℚ, r.highest_monthly_earnings = PVal.fin q ∧ 0 ≤ q ∧
        q ≤ (pyInt (maxHighQ T / 1000) : ℚ) * 1000)) :
    filteredTable T (unrestrictedCriteria T) = T := by
  rw [filteredTable_eq_filter]
  rw [List.filter_eq_self]
  intro r hr
  obtain ⟨⟨qs, hqs, hqs0⟩, ⟨qv, hqv, hqv0⟩, ⟨qh, hqh, hqh0, hqhle⟩⟩ := hp r hr
  simp [matchesCriteria, unrestrictedCriteria, numericPass, earningsPass, optIn,
    hqs, hqv, hqh, pvGeQ, pvLeQ, hqs0, hqv0, hqh0, hqhle]

/-- A record with all filtered fields present, highest monthly earnings
2000. -/
def recPresent : Record :=
  addDerived (mkBase (PVal.fin 1) (PVal.fin 500) (PVal.fin 2000) (PVal.fin 0) (PVal.fin 0)
    (PVal.fin 3) (PVal.fin 1) (PVal.fin 1))

/-- C2 witness: the amended theorem applied to a concrete one-record
table; 2000 is a multiple of 1000, so the slider cap does not cut it
off. -/
theorem unrestricted_filter_id_witness :
    (∀ r ∈ [recPresent],
      (∃ q : ℚ, r.subscribers = PVal.fin q ∧ 0 ≤ q) ∧
      (∃ q : ℚ, r.video_views = PVal.fin q ∧ 0 ≤ q) ∧
      (∃ q : ℚ, r.highest_monthly_earnings = PVal.fin q ∧ 0 ≤ q ∧
        q ≤ (pyInt (maxHighQ [recPresent] / 1000) : ℚ) * 1000)) ∧
    filteredTable [recPresent] (unrestrictedCriteria [recPresent]) = [recPresent] := by
  have hp : ∀ r ∈ [recPresent],
      (∃ q : ℚ, r.subscribers = PVal.fin q ∧ 0 ≤ q) ∧
      (∃ q : ℚ, r.video_views = PVal.fin q ∧ 0 ≤ q) ∧
      (∃ q : ℚ, r.highest_monthly_earnings = PVal.fin q ∧ 0 ≤ q ∧
        q ≤ (pyInt (maxHighQ [recPresent] / 1000) : ℚ) * 1000) := by
    intro r hr
    rw [List.mem_singleton] at hr
    subst hr
    refine ⟨⟨1, rfl, by norm_num⟩, ⟨3, rfl, by norm_num⟩, ⟨2000, rfl, by norm_num, ?_⟩⟩
    have hmax : maxHighQ [recPresent] = 2000 := by
      simp [maxHighQ, finiteHighs, recPresent, mkBase, addDerived, max_def]
    rw [hmax]
    have h2 : (2000 : ℚ) / 1000 = 2 := by norm_num
    rw [h2]
    have h3 : pyInt 2 = 2 := by simp [pyInt]
    rw [h3]
    norm_num
  exact ⟨hp, unrestricted_filter_id [recPresent] hp⟩

/-- A record whose highest-monthly-earnings value is missing. -/
def recMissingHigh : Record :=
  addDerived (mkBase (PVal.fin 1) (PVal.fin 0) PVal.nan (PVal.fin 0) (PVal.fin 0)
    (PVal.fin 1) (PVal.fin 1) (PVal.fin 1))

/-- C4, counterexample: a two-record table where the second record's
highest monthly earnings is missing.  Under the full unrestricted
earnings range the missing record still fails the range criterion,
contradicting the claim's "unless the bound is the full unrestricted
range (in which case it passes)". -/
theorem earnings_range_missing_fails_full_range :
    earningsPass (unrestrictedCriteria [recPresent, recMissingHigh]).earningsLoK
        (unrestrictedCriteria [recPresent, recMissingHigh]).earningsHiK recMissingHigh
      = false ∧
    recMissingHigh ∈ [recPresent, recMissingHigh] ∧
    recMissingHigh ∉
      filteredTable [recPresent, recMissingHigh]
        (unrestrictedCriteria [recPresent, recMissingHigh]) := by
  refine ⟨rfl, by simp, ?_⟩
  intro hmem
  rw [filteredTable_eq_filter, List.mem_filter] at hmem
  simpa [matchesCriteria, numericPass, earningsPass, recMissingHigh, mkBase, addDerived,
    pvGeQ, pvAdd, pvDiv, pvMul] using hmem.2

/-- C4 (amended): under the monthly-earnings-range criterion with bounds
`[lo, hi]` (in thousands, as the slider passes them), a record passes iff
its highest-monthly-earnings value is present and lies within
`[lo*1000, hi*1000]` inclusive; a missing value never passes, even when
the bounds are the full unrestricted range. -/
theorem earnings_range_semantics (loK hiK : ℤ) (r : Record) :
    earningsPass loK hiK r = true ↔
      ∃ q : ℚ, r.highest_monthly_earnings = PVal.fin q ∧
        (loK : ℚ) * 1000 ≤ q ∧ q ≤ (hiK : ℚ) * 1000 := by
  cases h : r.highest_monthly_earnings with
  | nan => simp [earningsPass, h, pvGeQ]
  | inf s => cases s <;> simp [earningsPass, h, pvGeQ, pvLeQ]
  | fin q => simp [earningsPass, h, pvGeQ, pvLeQ]

/-- C5: every record of any filtered view has present (non-missing)
subscriber, total-views and highest-monthly-earnings values: the numeric
threshold comparisons are false on missing values, so such records are
unconditionally excluded, whatever the criteria. -/
theorem filtered_fields_present (T : List Record) (c : Criteria) (r : Record)
    (hr : r ∈ filteredTable T c) :
    isMissing r.subscribers = false ∧ isMissing r.video_views = false ∧
      isMissing r.highest_monthly_earnings = false := by
  rw [filteredTable_eq_filter, List.mem_filter] at hr
  have hn := hr.2
  simp only [matchesCriteria, numericPass, earningsPass, Bool.and_eq_true] at hn
  obtain ⟨⟨-, -⟩, ⟨h1, h2⟩, h3, -⟩ := hn
  refine ⟨?_, ?_, ?_⟩
  · cases h : r.subscribers <;> rw [h] at h1 <;> simp_all [pvGeQ, isMissing]
  · cases h : r.video_views <;> rw [h] at h2 <;> simp_all [pvGeQ, isMissing]
  · cases h : r.highest_monthly_earnings <;> rw [h] at h3 <;> simp_all [pvGeQ, isMissing]

/-- A concrete restrictive-looking but satisfiable criteria: no country
or type restriction, zero minimums, earnings range 0 to 5 thousand. -/
def critC5 : Criteria :=
  { countries := []
    channelTypes := []
    minSubsM := 0
    minViewsB := 0
    earningsLoK := 0
    earningsHiK := 5 }

/-- C5 witness: a concrete record in a concrete filtered view. -/
theorem filtered_fields_present_witness :
    recPresent ∈ filteredTable [recPresent] critC5 ∧
    (isMissing recPresent.subscribers = false ∧ isMissing recPresent.video_views = false ∧
      isMissing recPresent.highest_monthly_earnings = false) := by
  have hmem : recPresent ∈ filteredTable [recPresent] critC5 := by
    rw [filteredTable_eq_filter]
    refine List.mem_filter.mpr ⟨by simp, ?_⟩
    simp [matchesCriteria, critC5, numericPass, earningsPass, optIn, recPresent, mkBase,
      addDerived, pvGeQ, pvLeQ]
    norm_num
  exact ⟨hmem, filtered_fields_present [recPresent] critC5 recPresent hmem⟩

/-- C6: filtering is conjunctive and composes via intersection: filtering
the base table with the conjunction of two criteria yields the same
sequence as filtering with the second criteria the result of filtering
with the first. -/
theorem filter_conjunctive (T : List Record) (c1 c2 : Criteria) :
    T.filter (fun r => matchesCriteria c1 r && matchesCriteria c2 r) =
      filteredTable (filteredTable T c1) c2 := by
  rw [filteredTable_eq_filter, filteredTable_eq_filter, List.filter_filter]
  refine List.filter_congr fun r hr => ?_
  exact Bool.and_comm _ _

/-- C7: filtering is order-preserving: the filtered view is exactly the
subsequence of base-table records satisfying the criteria, in base-table
order (in particular it is a sublist of the base table). -/
theorem filter_order_preserving (T : List Record) (c : Criteria) :
    filteredTable T c = T.filter (matchesCriteria c) ∧
      List.Sublist (filteredTable T c) T := by
  refine ⟨filteredTable_eq_filter T c, ?_⟩
  rw [filteredTable_eq_filter]
  exact List.filter_sublist T

/-! ### Header normalization (line 15)

`df.columns = [col.strip().lower().replace(" ", "_") for col in df.columns]`

Header text is modelled as its list of character code points.  `strip`
removes the ASCII whitespace code points from both ends, `lower` is
Python `str.lower` restricted to the ASCII letters (which covers every
header of the data source), and `replace(" ", "_")` rewrites each space
(code 32) to an underscore (code 95). -/

/-- The ASCII whitespace code points removed by Python `str.strip`:
space, tab, linefeed, vertical tab, formfeed, carriage return. -/
def isSpaceCode (n : ℕ) : Bool :=
  decide (n = 32 ∨ n = 9 ∨ n = 10 ∨ n = 11 ∨ n = 12 ∨ n = 13)

/-- Python `str.strip()`: drop whitespace from the front, then from the
back. -/
def pyStrip (s : List ℕ) : List ℕ :=
  List.rdropWhile isSpaceCode (List.dropWhile isSpaceCode s)

/-- Python `str.lower()` on one ASCII code point. -/
def lowerCode (n : ℕ) : ℕ := if 65 ≤ n ∧ n ≤ 90 then n + 32 else n

/-- Python `str.lower()`. -/
def pyLower (s : List ℕ) : List ℕ := s.map lowerCode

/-- One step of `str.replace(" ", "_")`: space (32) becomes underscore
(95). -/
def underscoreCode (n : ℕ) : ℕ := if n = 32 then 95 else n

/-- Python `str.replace(" ", "_")`: the pattern is a single character, so
the replacement is pointwise. -/
def pyReplaceSpace (s : List ℕ) : List ℕ := s.map underscoreCode

/-- Line 15: `col.strip().lower().replace(" ", "_")`. -/
def normalizeHeader (s : List ℕ) : List ℕ := pyReplaceSpace (pyLower (pyStrip s))

theorem phi_lower (n : ℕ) :
    lowerCode (underscoreCode (lowerCode n)) = underscoreCode (lowerCode n) := by
  unfold lowerCode underscoreCode
  split_ifs <;> omega

theorem phi_under (n : ℕ) :
    underscoreCode (underscoreCode (lowerCode n)) = underscoreCode (lowerCode n) := by
  unfold lowerCode underscoreCode
  split_ifs <;> omega

theorem phi_notSpace (n : ℕ) (h : isSpaceCode n = false) :
    isSpaceCode (underscoreCode (lowerCode n)) = false := by
  simp only [isSpaceCode, decide_eq_false_iff_not] at h ⊢
  unfold lowerCode underscoreCode
  split_ifs <;> omega

theorem strip_phi_map (t : List ℕ)
    (hh : ∀ hl : 0 < t.length, isSpaceCode (t.get ⟨0, hl⟩) = false)
    (hl : ∀ hne : t ≠ [], isSpaceCode (t.getLast hne) = false) :
    pyStrip (t.map (fun n => underscoreCode (lowerCode n))) =
      t.map (fun n => underscoreCode (lowerCode n)) := by
  have h1 : List.dropWhile isSpaceCode (t.map (fun n => underscoreCode (lowerCode n))) =
      t.map (fun n => underscoreCode (lowerCode n)) := by
    rw [List.dropWhile_eq_self_iff]
    intro hlen
    have hlen' : 0 < t.length := by simpa using hlen
    have hg : (t.map (fun n => underscoreCode (lowerCode n))).get ⟨0, hlen⟩ =
        underscoreCode (lowerCode (t.get ⟨0, hlen'⟩)) := by
      simp [List.get_eq_getElem, List.getElem_map]
    rw [hg]
    have hns := phi_notSpace (t.get ⟨0, hlen'⟩) (hh hlen')
    simpa using hns
  rw [pyStrip, h1, List.rdropWhile_eq_self_iff]
  intro hne
  have hne' : t ≠ [] := by
    intro h0
    exact hne (by simp [h0])
  have hg : (t.map (fun n => underscoreCode (lowerCode n))).getLast hne =
      underscoreCode (lowerCode (t.getLast hne')) := by
    rw [List.getLast_eq_getElem, List.getLast_eq_getElem]
    simp [List.getElem_map]
  rw [hg]
  have hns := phi_notSpace (t.getLast hne') (hl hne')
  simpa using hns

theorem pyStrip_boundary (s : List ℕ) :
    (∀ hl : 0 < (pyStrip s).length, isSpaceCode ((pyStrip s).get ⟨0, hl⟩) = false) ∧
    (∀ hne : pyStrip s ≠ [], isSpaceCode ((pyStrip s).getLast hne) = false) := by
  constructor
  · intro hl
    have hpre := List.rdropWhile_prefix isSpaceCode (List.dropWhile isSpaceCode s)
    obtain ⟨rest, hrest⟩ := hpre
    have hdlen : 0 < (List.dropWhile isSpaceCode s).length := by
      rw [← hrest, List.length_append]
      have := hl
      simp only [pyStrip] at this
      omega
    have hget : (pyStrip s).get ⟨0, hl⟩ = (List.dropWhile isSpaceCode s).get ⟨0, hdlen⟩ := by
      have hsplit : (List.dropWhile isSpaceCode s) = pyStrip s ++ rest := by
        rw [← hrest]; rfl
      simp only [hsplit, List.get_eq_getElem]
      rw [List.getElem_append_left]
    rw [hget]
    have := List.dropWhile_get_zero_not isSpaceCode s hdlen
    simpa using this
  · intro hne
    have := List.rdropWhile_last_not isSpaceCode (List.dropWhile isSpaceCode s)
      (by simpa [pyStrip] using hne)
    simpa [pyStrip] using this

/-- C8: header normalization is idempotent: normalizing an
already-normalized header returns it unchanged. -/
theorem normalizeHeader_idempotent (s : List ℕ) :
    normalizeHeader (normalizeHeader s) = normalizeHeader s := by
  obtain ⟨hh, hl⟩ := pyStrip_boundary s
  have hmm : normalizeHeader s = (pyStrip s).map (fun n => underscoreCode (lowerCode n)) := by
    simp [normalizeHeader, pyReplaceSpace, pyLower, List.map_map, Function.comp]
  rw [hmm, normalizeHeader, strip_phi_map (pyStrip s) hh hl]
  simp [pyLower, pyReplaceSpace, List.map_map, Function.comp, phi_lower, phi_under]

/-! ### Top-N selection (`nlargest`, lines 191 and 356-378)

`df.nlargest(n, col)` returns the `n` rows with the largest values in
`col`, sorted descending.  With the default `keep='first'`, rows with
equal keys are prioritized in their original order (a stable descending
sort), and rows whose key is missing sort after every present key.  The
model is the stable insertion sort under the total preorder `pvDesc`
(descending, missing last), truncated to `n`. -/

/-- The descending sort order used by `nlargest`: `pvDesc a b` means a
row with key `a` may come before a row with key `b`: missing keys sort
after everything, `+∞` first, `-∞` after every finite value, finite
values by descending numeric order. -/
def pvDesc : PVal → PVal → Bool
  | _, PVal.nan => true
  | PVal.nan, _ => false
  | PVal.inf true, _ => true
  | _, PVal.inf true => false
  | _, PVal.inf false => true
  | PVal.inf false, _ => false
  | PVal.fin a, PVal.fin b => decide (b ≤ a)

/-- `pvDesc` lifted to records through a sort-key column `f`. -/
def descRel (f : Record → PVal) (a b : Record) : Prop := pvDesc (f a) (f b) = true

instance descRelDecidable (f : Record → PVal) : DecidableRel (descRel f) :=
  fun a b => inferInstanceAs (Decidable (pvDesc (f a) (f b) = true))

/-- `df.nlargest(n, col)` with `keep='first'`: stable descending sort by
the key, missing keys last, truncated to the first `n` rows. -/
def nlargestBy (f : Record → PVal) (n : ℕ) (T : List Record) : List Record :=
  (List.insertionSort (descRel f) T).take n

theorem pvDesc_refl (a : PVal) : pvDesc a a = true := by
  rcases a with _ | sa | qa
  · rfl
  · cases sa <;> rfl
  · simp [pvDesc]

theorem pvDesc_total (a b : PVal) : pvDesc a b = true ∨ pvDesc b a = true := by
  rcases a with _ | sa | qa <;> rcases b with _ | sb | qb <;>
    (try cases sa) <;> (try cases sb) <;> simp [pvDesc] <;> exact le_total qb qa

theorem pvDesc_trans (a b c : PVal) (h1 : pvDesc a b = true) (h2 : pvDesc b c = true) :
    pvDesc a c = true := by
  rcases a with _ | sa | qa <;> rcases b with _ | sb | qb <;> rcases c with _ | sc | qc <;>
    (try cases sa) <;> (try cases sb) <;> (try cases sc) <;> simp_all [pvDesc] <;>
    exact le_trans h2 h1

theorem filter_insertionSort (f : Record → PVal) (T : List Record) (q : Record → Bool)
    (hq : ∀ a b, q a = true → q b = true → descRel f a b) :
    (List.insertionSort (descRel f) T).filter q = T.filter q := by
  have hpw : (T.filter q).Pairwise (descRel f) := by
    have hmem : ∀ a ∈ T.filter q, q a = true := fun a ha => (List.mem_filter.mp ha).2
    have : ∀ a ∈ T.filter q, ∀ b ∈ T.filter q, descRel f a b :=
      fun a ha b hb => hq a b (hmem a ha) (hmem b hb)
    exact List.pairwise_of_forall_mem_list this
  have hsub : List.Sublist (T.filter q) (List.insertionSort (descRel f) T) :=
    List.sublist_insertionSort hpw (List.filter_sublist T)
  have h1 : List.Sublist ((T.filter q).filter q)
      ((List.insertionSort (descRel f) T).filter q) :=
    hsub.filter q
  have h2 : (T.filter q).filter q = T.filter q := by
    rw [List.filter_filter]
    exact List.filter_congr fun a _ => Bool.and_self (q a)
  rw [h2] at h1
  have hperm : List.Perm ((List.insertionSort (descRel f) T).filter q) (T.filter q) :=
    (List.perm_insertionSort (descRel f) T).filter q
  exact (h1.eq_of_length hperm.length_eq.symm).symm

/-- C3: top-N is stable and monotonic.  The returned sequence is ordered
by `pvDesc` on the sort key (descending, with rows whose key is missing
after every present key); for every key value, the selected rows with
that key are a subsequence of the base table's rows with that key, in
base-table order (stability); and when N is at least the table size the
result is a permutation of the table, i.e. every record exactly once. -/
theorem topn_spec (f : Record → PVal) (n : ℕ) (T : List Record) :
    List.Pairwise (descRel f) (nlargestBy f n T) ∧
    (∀ v : PVal, List.Sublist ((nlargestBy f n T).filter (fun r => decide (f r = v)))
        (T.filter (fun r => decide (f r = v)))) ∧
    (T.length ≤ n → List.Perm (nlargestBy f n T) T) := by
  haveI : IsTotal Record (descRel f) := ⟨fun a b => pvDesc_total (f a) (f b)⟩
  haveI : IsTrans Record (descRel f) := ⟨fun a b c => pvDesc_trans (f a) (f b) (f c)⟩
  refine ⟨?_, ?_, ?_⟩
  · have hs : (List.insertionSort (descRel f) T).Pairwise (descRel f) :=
      List.sorted_insertionSort (descRel f) T
    exact hs.sublist (List.take_sublist n _)
  · intro v
    have heq := filter_insertionSort f T (fun r => decide (f r = v))
      (by
        intro a b ha hb
        have ha' : f a = v := by simpa using ha
        have hb' : f b = v := by simpa using hb
        unfold descRel
        rw [ha', hb']
        exact pvDesc_refl v)
    have ht : List.Sublist ((nlargestBy f n T).filter (fun r => decide (f r = v)))
        ((List.insertionSort (descRel f) T).filter (fun r => decide (f r = v))) :=
      (List.take_sublist n _).filter _
    rw [heq] at ht
    exact ht
  · intro hlen
    have hall : nlargestBy f n T = List.insertionSort (descRel f) T := by
      apply List.take_of_length_le
      rw [(List.perm_insertionSort (descRel f) T).length_eq]
      exact hlen
    rw [hall]
    exact List.perm_insertionSort (descRel f) T

/-- C3 witness: the theorem applied to a concrete two-record table with
N = 3 ≥ table size, the hypothesis discharged by evaluation. -/
theorem topn_spec_witness :
    ([recPresent, recMissingSubs] : List Record).length ≤ 3 ∧
    List.Perm (nlargestBy Record.subscribers 3 [recPresent, recMissingSubs])
      [recPresent, recMissingSubs] :=
  ⟨by simp, (topn_spec Record.subscribers 3 [recPresent, recMissingSubs]).2.2 (by simp)⟩

/-! ### Aggregations (pandas `mean`, `median`, `max`, `min`, `sum`,
`count`; lines 100, 442-456 among others)

All pandas reductions skip missing values (`skipna=True`).  On an empty
or all-missing column `mean`, `median`, `max` and `min` return `NaN`,
`count` returns 0, and `sum` returns 0 (the default `min_count=0`). -/

/-- The non-missing values of a column (pandas reductions skip `NaN`). -/
def presentVals (xs : List PVal) : List PVal := xs.filter (fun v => !isMissing v)

/-- pandas `Series.count`. -/
def pdCount (xs : List PVal) : ℕ := (presentVals xs).length

/-- pandas `Series.sum` with the default `min_count=0`: the sum of the
non-missing values, 0 for an empty or all-missing column. -/
def pdSum (xs : List PVal) : PVal := (presentVals xs).foldr pvAdd (PVal.fin 0)

/-- pandas `Series.mean`: `NaN` on an empty or all-missing column. -/
def pdMean (xs : List PVal) : PVal :=
  if presentVals xs = [] then PVal.nan else pvDiv (pdSum xs) (PVal.fin (pdCount xs))

/-- Binary maximum under the `nlargest` order. -/
def pvMax2 (a b : PVal) : PVal := if pvDesc a b then a else b

/-- Binary minimum under the `nlargest` order. -/
def pvMin2 (a b : PVal) : PVal := if pvDesc a b then b else a

/-- pandas `Series.max`: `NaN` on an empty or all-missing column. -/
def pdMax (xs : List PVal) : PVal :=
  match presentVals xs with
  | [] => PVal.nan
  | v :: vs => vs.foldl pvMax2 v

/-- pandas `Series.min`: `NaN` on an empty or all-missing column. -/
def pdMin (xs : List PVal) : PVal :=
  match presentVals xs with
  | [] => PVal.nan
  | v :: vs => vs.foldl pvMin2 v

/-- The ascending sort order on values (for the median). -/
def ascRelP (a b : PVal) : Prop := pvDesc b a = true

instance ascRelPDecidable : DecidableRel ascRelP :=
  fun a b => inferInstanceAs (Decidable (pvDesc b a = true))

/-- pandas `Series.median`: sort the non-missing values ascending and
take the middle value, or the mean of the two middle values; `NaN` on an
empty or all-missing column. -/
def pdMedian (xs : List PVal) : PVal :=
  let s := List.insertionSort ascRelP (presentVals xs)
  if s.length = 0 then PVal.nan
  else if s.length % 2 = 1 then s.getD (s.length / 2) PVal.nan
  else pvDiv (pvAdd (s.getD (s.length / 2 - 1) PVal.nan) (s.getD (s.length / 2) PVal.nan))
    (PVal.fin 2)

/-- A record with a country value, for building concrete filtered views. -/
def recC9 : Record := { recPresent with country := some "US" }

/-- A criteria whose country selection matches nothing. -/
def critNoMatch : Criteria :=
  { countries := ["ZZ"]
    channelTypes := []
    minSubsM := 0
    minViewsB := 0
    earningsLoK := 0
    earningsHiK := 5 }

/-- C9, counterexample: over a concrete empty filtered view (a filter
combination matching zero records), `sum` returns 0 — line 442,
`filtered_df['avg_monthly_earnings'].sum()` — not a missing value as the
claim states. -/
theorem empty_sum_not_missing :
    filteredTable [recC9] critNoMatch = [] ∧
    pdSum ((filteredTable [recC9] critNoMatch).map Record.avg_monthly_earnings) = PVal.fin 0 ∧
    PVal.fin 0 ≠ PVal.nan :=
  ⟨rfl, rfl, by decide⟩

/-- C9 (amended): over an empty filtered view, `mean`, `median`, `max`
and `min` of any numeric column return a missing value and `count`
returns zero, while `sum` returns 0 (not missing); every aggregation is a
total function, so none raises. -/
theorem empty_view_aggregations (T : List Record) (c : Criteria) (f : Record → PVal)
    (h : filteredTable T c = []) :
    pdMean ((filteredTable T c).map f) = PVal.nan ∧
    pdMedian ((filteredTable T c).map f) = PVal.nan ∧
    pdMax ((filteredTable T c).map f) = PVal.nan ∧
    pdMin ((filteredTable T c).map f) = PVal.nan ∧
    pdSum ((filteredTable T c).map f) = PVal.fin 0 ∧
    pdCount ((filteredTable T c).map f) = 0 := by
  rw [h]
  refine ⟨rfl, rfl, rfl, rfl, rfl, rfl⟩

/-- C9 witness: the amended theorem applied to a concrete table and
criteria whose filtered view is empty. -/
theorem empty_view_aggregations_witness :
    filteredTable [recC9] critNoMatch = [] ∧
    (pdMean ((filteredTable [recC9] critNoMatch).map Record.subscribers) = PVal.nan ∧
    pdMedian ((filteredTable [recC9] critNoMatch).map Record.subscribers) = PVal.nan ∧
    pdMax ((filteredTable [recC9] critNoMatch).map Record.subscribers) = PVal.nan ∧
    pdMin ((filteredTable [recC9] critNoMatch).map Record.subscribers) = PVal.nan ∧
    pdSum ((filteredTable [recC9] critNoMatch).map Record.subscribers) = PVal.fin 0 ∧
    pdCount ((filteredTable [recC9] critNoMatch).map Record.subscribers) = 0) :=
  ⟨rfl, empty_view_aggregations [recC9] critNoMatch Record.subscribers rfl⟩

/-! ### Lenient numeric coercion (lines 23-24)

`df[col] = pd.to_numeric(df[col], errors="coerce")` for each declared
numeric column: a cell that does not parse as a number becomes `NaN`; the
row is kept and the load never fails on a malformed cell.  The accepted
grammar is modelled as optionally signed decimal literals with
surrounding whitespace. -/

/-- One raw CSV row: the three string columns and the raw text (code
points) of the eight declared numeric columns. -/
structure RawRecord where
  youtuber : Option String
  country : Option String
  channel_type : Option String
  subscribers : List ℕ
  video_views : List ℕ
  uploads : List ℕ
  video_views_for_the_last_30_days : List ℕ
  lowest_monthly_earnings : List ℕ
  highest_monthly_earnings : List ℕ
  lowest_yearly_earnings : List ℕ
  highest_yearly_earnings : List ℕ

/-- ASCII digit code points. -/
def isDigitCode (n : ℕ) : Bool := decide (48 ≤ n ∧ n ≤ 57)

/-- Value of a digit string read left to right. -/
def digitsVal (s : List ℕ) : ℚ := s.foldl (fun acc d => acc * 10 + ((d : ℚ) - 48)) 0

/-- Value of a fractional digit string (the part after the point). -/
def fracVal (s : List ℕ) : ℚ := s.foldr (fun d acc => (((d : ℚ) - 48) + acc) / 10) 0

/-- Parse an unsigned decimal literal: digits, optionally followed by a
point (code 46) and digits, with at least one digit in total. -/
def parseUnsigned (s : List ℕ) : Option ℚ :=
  match s.dropWhile isDigitCode with
  | [] => if (s.takeWhile isDigitCode).isEmpty then none else some (digitsVal (s.takeWhile isDigitCode))
  | 46 :: frac =>
      if frac.all isDigitCode && !((s.takeWhile isDigitCode).isEmpty && frac.isEmpty) then
        some (digitsVal (s.takeWhile isDigitCode) + fracVal frac)
      else none
  | _ => none

/-- `pd.to_numeric(cell, errors="coerce")`: strip surrounding whitespace,
allow an optional sign (codes 45 and 43), and parse a decimal literal;
any failure yields `none` (missing), never an error. -/
def pyToNumeric (s : List ℕ) : Option ℚ :=
  match pyStrip s with
  | 45 :: r => (parseUnsigned r).map (fun q => -q)
  | 43 :: r => parseUnsigned r
  | r => parseUnsigned r

/-- A parsed optional value as a pandas cell. -/
def toPVal : Option ℚ → PVal
  | some q => PVal.fin q
  | none => PVal.nan

/-- Lines 13-32 for one row: coerce each declared numeric column
(`errors="coerce"`), keep the string columns, then add the derived
columns. -/
def loadRecord (w : RawRecord) : Record :=
  addDerived
    { youtuber := w.youtuber
      country := w.country
      channel_type := w.channel_type
      subscribers := toPVal (pyToNumeric w.subscribers)
      video_views := toPVal (pyToNumeric w.video_views)
      uploads := toPVal (pyToNumeric w.uploads)
      video_views_for_the_last_30_days :=
        toPVal (pyToNumeric w.video_views_for_the_last_30_days)
      lowest_monthly_earnings := toPVal (pyToNumeric w.lowest_monthly_earnings)
      highest_monthly_earnings := toPVal (pyToNumeric w.highest_monthly_earnings)
      lowest_yearly_earnings := toPVal (pyToNumeric w.lowest_yearly_earnings)
      highest_yearly_earnings := toPVal (pyToNumeric w.highest_yearly_earnings)
      avg_monthly_earnings := PVal.nan
      avg_yearly_earnings := PVal.nan
      views_per_video := PVal.nan
      engagement_rate := PVal.nan }

/-- The whole load: one record per raw row, none dropped, no failure. -/
def loadTable (rows : List RawRecord) : List Record := rows.map loadRecord

/-- C10: loading is total and lenient.  The loaded table has exactly one
record per raw row (no row is dropped and the load never fails); each
loaded record is the row-wise coercion of its raw row; and replacing one
numeric cell by text that does not parse changes the loaded record only
in that one field, which becomes missing. -/
theorem load_lenient (rows : List RawRecord) (w : RawRecord) (s : List ℕ) (i : ℕ)
    (h1 : i < rows.length) (h2 : i < (loadTable rows).length)
    (hs : pyToNumeric s = none) :
    (loadTable rows).length = rows.length ∧
    (loadTable rows).get ⟨i, h2⟩ = loadRecord (rows.get ⟨i, h1⟩) ∧
    loadRecord { w with subscribers := s } = { loadRecord w with subscribers := PVal.nan } := by
  refine ⟨by simp [loadTable], ?_, ?_⟩
  · simp [loadTable]
  · simp [loadRecord, addDerived, hs, toPVal]

/-- A raw row whose numeric cells all hold the digit 1. -/
def rawEx : RawRecord :=
  { youtuber := some "A"
    country := some "US"
    channel_type := some "Music"
    subscribers := [49]
    video_views := [49]
    uploads := [49]
    video_views_for_the_last_30_days := [49]
    lowest_monthly_earnings := [49]
    highest_monthly_earnings := [49]
    lowest_yearly_earnings := [49]
    highest_yearly_earnings := [49] }

/-- C10 witness: the theorem applied to a concrete one-row table, with
the unparsable cell "na" (codes 110, 97). -/
theorem load_lenient_witness :
    pyToNumeric [110, 97] = none ∧
    ((loadTable [rawEx]).length = [rawEx].length ∧
      (loadTable [rawEx]).get ⟨0, by simp [loadTable]⟩ = loadRecord ([rawEx].get ⟨0, by simp⟩) ∧
      loadRecord { rawEx with subscribers := [110, 97] } =
        { loadRecord rawEx with subscribers := PVal.nan }) :=
  ⟨rfl, load_lenient [rawEx] rawEx [110, 97] 0 (by simp) (by simp [loadTable]) rfl⟩

end YTDash
